import Mathlib

/-!
Verification of the garmin-coach command-dispatch core (src/src/main.rs).

The program is a CLI dispatcher: a clap-parsed command is routed to one of
three functions, each of which spawns `python3` on a fixed script via
`std::process::Command::output()`, prints the captured stdout on success or
the captured stderr on failure, and returns `anyhow::Result<()>`.

The embedding models the operating system seen through `Command::output()` as
a function from invocation targets to either a launch error (the underlying
cause as text) or a completed child's output.  Each Rust function becomes a
Lean function from that environment to an explicit record of its observable
effects: the lines it prints to stdout and stderr, the spawn attempts it
makes, and the `Result` it returns.  Captured streams are modelled as Unicode
text (the source passes them through `String::from_utf8_lossy`).
-/

namespace GarminCoach

/-- The parsed CLI command: Rust `enum Commands` with its three variants and
their single string field (`data_type`, `coaching_type`, `example_type`). -/
inductive Commands where
  | FetchData (data_type : String)
  | Coaching (coaching_type : String)
  | Example (example_type : String)
deriving DecidableEq, Repr

/-- The string field carried by a parsed command. -/
def kindOf : Commands → String
  | .FetchData k => k
  | .Coaching k => k
  | .Example k => k

/-- A resolved external-operation invocation: the executable name and the
ordered argument list handed to `std::process::Command`. -/
structure InvocationTarget where
  program : String
  args : List String
deriving DecidableEq, Repr

/-- Target built by `Command::new("python3").arg("python_client/example.py")`. -/
def exampleScriptTarget : InvocationTarget :=
  ⟨"python3", ["python_client/example.py"]⟩

/-- Target built by `Command::new("python3").arg("python_client/ai_example.py")`. -/
def aiScriptTarget : InvocationTarget :=
  ⟨"python3", ["python_client/ai_example.py"]⟩

/-- Captured result of a child process that did start: its exit code and its
two captured streams.  Rust's `ExitStatus::success()` is `exit_code = 0`. -/
structure ChildOutput where
  exit_code : Nat
  stdout : String
  stderr : String
deriving DecidableEq, Repr

/-- The operating system as seen through `Command::output()`: for each target,
either the spawn fails with an underlying cause, or the child runs to
completion and yields a `ChildOutput`. -/
abbrev SpawnEnv : Type := InvocationTarget → Except String ChildOutput

/-- The environment that answers every spawn attempt the same way. -/
def constEnv (r : Except String ChildOutput) : SpawnEnv := fun _ => r

/-- An `anyhow` error as produced by `.context(msg)` on an io error: the
context message plus the underlying cause. -/
structure AnyhowError where
  context : String
  cause : String
deriving DecidableEq, Repr

instance exceptDecEq {ε α : Type} [DecidableEq ε] [DecidableEq α] :
    DecidableEq (Except ε α) := fun a b =>
  match a, b with
  | .error e, .error f =>
      if h : e = f then isTrue (by rw [h]) else isFalse (by simp [h])
  | .ok x, .ok y =>
      if h : x = y then isTrue (by rw [h]) else isFalse (by simp [h])
  | .error _, .ok _ => isFalse (by simp)
  | .ok _, .error _ => isFalse (by simp)

/-- Observable effects of one call: lines printed to stdout (one entry per
`println!`), lines printed to stderr (one per `eprintln!`), the spawn attempts
made, and the returned `Result<()>`. -/
structure Effects where
  out : List String
  err : List String
  spawned : List InvocationTarget
  ret : Except AnyhowError Unit
deriving DecidableEq, Repr

/-- Rust `fn fetch_garmin_data(_data_type: &str) -> Result<()>`: print the
intro line, spawn `python3 python_client/example.py`; on launch error return
the contexted error; on success status print stdout and a confirmation; on
failure status print an error header and the captured stderr; return Ok. -/
def fetch_garmin_data (env : SpawnEnv) (_data_type : String) : Effects :=
  let intro := "\n📊 Fetching Garmin data using Python client...\n"
  match env exampleScriptTarget with
  | .error e =>
      { out := [intro], err := [], spawned := [exampleScriptTarget],
        ret := .error ⟨"Failed to execute Python script. Make sure Python 3 is installed.", e⟩ }
  | .ok output =>
      if output.exit_code = 0 then
        { out := [intro, output.stdout, "✅ Data fetched successfully!"],
          err := [], spawned := [exampleScriptTarget], ret := .ok () }
      else
        { out := [intro],
          err := ["❌ Error fetching data:", output.stderr],
          spawned := [exampleScriptTarget], ret := .ok () }

/-- Rust `fn get_ai_coaching(_coaching_type: &str) -> Result<()>`: same shape
as `fetch_garmin_data` with the AI script and its own messages. -/
def get_ai_coaching (env : SpawnEnv) (_coaching_type : String) : Effects :=
  let intro := "\n🤖 Getting AI coaching feedback...\n"
  match env aiScriptTarget with
  | .error e =>
      { out := [intro], err := [], spawned := [aiScriptTarget],
        ret := .error ⟨"Failed to execute AI coaching script. Make sure Python 3 is installed.", e⟩ }
  | .ok output =>
      if output.exit_code = 0 then
        { out := [intro, output.stdout, "✅ Coaching feedback received!"],
          err := [], spawned := [aiScriptTarget], ret := .ok () }
      else
        { out := [intro],
          err := ["❌ Error getting coaching:", output.stderr],
          spawned := [aiScriptTarget], ret := .ok () }

/-- Rust `fn run_example(example_type: &str) -> Result<()>`: match the example
type to a script ("data" and "ai"; anything else prints a diagnostic and
returns Ok with no spawn), then spawn and report as the other two do, without
the extra confirmation line on success. -/
def run_example (env : SpawnEnv) (example_type : String) : Effects :=
  if example_type = "data" ∨ example_type = "ai" then
    let target := if example_type = "data" then exampleScriptTarget else aiScriptTarget
    let intro := "\n🚀 Running " ++ example_type ++ " example...\n"
    match env target with
    | .error e =>
        { out := [intro], err := [], spawned := [target],
          ret := .error ⟨"Failed to execute example script. Make sure Python 3 is installed.", e⟩ }
    | .ok output =>
        if output.exit_code = 0 then
          { out := [intro, output.stdout], err := [], spawned := [target], ret := .ok () }
        else
          { out := [intro],
            err := ["❌ Error running example:", output.stderr],
            spawned := [target], ret := .ok () }
  else
    { out := [], err := ["Unknown example type. Use \x27data\x27 or \x27ai\x27"],
      spawned := [], ret := .ok () }

/-- Rust `fn main() -> Result<()>` after parsing: match on the command, print
the announcement line, call the dispatch function and propagate its error with
`?`, then return Ok. -/
def main (env : SpawnEnv) (command : Commands) : Effects :=
  match command with
  | .FetchData data_type =>
      let e := fetch_garmin_data env data_type
      { e with out := ("Fetching " ++ data_type ++ " data from Garmin Connect...") :: e.out }
  | .Coaching coaching_type =>
      let e := get_ai_coaching env coaching_type
      { e with out := ("Getting " ++ coaching_type ++ " coaching feedback...") :: e.out }
  | .Example example_type =>
      let e := run_example env example_type
      { e with out := ("Running " ++ example_type ++ " example...") :: e.out }

/-- Process exit status: Rust maps `fn main() -> Result<()>` to exit code 0 on
Ok and a nonzero code (1) on Err, printing the error. -/
def process_exit_code (env : SpawnEnv) (command : Commands) : Nat :=
  match (main env command).ret with
  | .ok _ => 0
  | .error _ => 1

/-- One optional string flag with a default, as declared by the clap derive
attributes `#[arg(short, long, default_value = ...)]`: no tokens yield the
default; the two-token forms `--long value` and `-s value` yield the supplied
value verbatim; other token sequences are a parse error. -/
def parse_flag_value (short long dflt : String) (toks : List String) : Option String :=
  match toks with
  | [] => some dflt
  | [f, v] => if f = "--" ++ long ∨ f = "-" ++ short then some v else none
  | _ => none

/-- The clap derive parser for `Cli`, restricted to the flag spellings above:
subcommand `fetch-data` with flag data-type (default "activities"), `coaching`
with coaching-type (default "activity"), `example` with example-type (default
"data").  `none` models clap's parse error (usage message, exit code 2). -/
def parse (args : List String) : Option Commands :=
  match args with
  | "fetch-data" :: rest =>
      match parse_flag_value "d" "data-type" "activities" rest with
      | some v => some (.FetchData v)
      | none => none
  | "coaching" :: rest =>
      match parse_flag_value "c" "coaching-type" "activity" rest with
      | some v => some (.Coaching v)
      | none => none
  | "example" :: rest =>
      match parse_flag_value "e" "example-type" "data" rest with
      | some v => some (.Example v)
      | none => none
  | _ => none

/-- The spec's uniform result taxonomy for one dispatch (spec sections 4.2
step 3 and 7). -/
inductive UserFacingResult where
  | Success (stdout : String)
  | OperationFailure (stderr : String)
  | LaunchFailure (cause : String)
  | UnsupportedInput
deriving DecidableEq, Repr

/-- Modelled from the spec, section 4.2 step Resolve: the static table from a
command to an optional invocation target; `Example` with a kind outside the
supported pair resolves to no target. -/
def specResolve : Commands → Option InvocationTarget
  | .FetchData _ => some exampleScriptTarget
  | .Coaching _ => some aiScriptTarget
  | .Example k =>
      if k = "data" then some exampleScriptTarget
      else if k = "ai" then some aiScriptTarget
      else none

/-- Modelled from the spec, section 4.2 step Normalize: classification of one
dispatch into the spec's result taxonomy, to be compared with the behaviour of
the source embedding. -/
def specOutcome (env : SpawnEnv) (command : Commands) : UserFacingResult :=
  match specResolve command with
  | none => .UnsupportedInput
  | some t =>
      match env t with
      | .error c => .LaunchFailure c
      | .ok o =>
          if o.exit_code = 0 then .Success o.stdout else .OperationFailure o.stderr

/-! Helper lemmas about the spawn attempts of each dispatch function. -/

theorem spawned_fetch (env : SpawnEnv) (k : String) :
    (fetch_garmin_data env k).spawned = [exampleScriptTarget] := by
  cases h : env exampleScriptTarget <;> simp only [fetch_garmin_data, h]
  split <;> rfl

theorem spawned_coaching (env : SpawnEnv) (k : String) :
    (get_ai_coaching env k).spawned = [aiScriptTarget] := by
  cases h : env aiScriptTarget <;> simp only [get_ai_coaching, h]
  split <;> rfl

theorem spawned_example_data (env : SpawnEnv) :
    (run_example env "data").spawned = [exampleScriptTarget] := by
  rcases h : env exampleScriptTarget with e | o <;> simp [run_example, h]
  split <;> rfl

theorem spawned_example_ai (env : SpawnEnv) :
    (run_example env "ai").spawned = [aiScriptTarget] := by
  rcases h : env aiScriptTarget with e | o <;> simp [run_example, h]
  split <;> rfl

theorem spawned_example_other (env : SpawnEnv) (k : String)
    (h1 : k ≠ "data") (h2 : k ≠ "ai") :
    (run_example env k).spawned = [] := by
  simp [run_example, h1, h2]

theorem main_spawned (env : SpawnEnv) (command : Commands) :
    (main env command).spawned =
      match command with
      | .FetchData k => (fetch_garmin_data env k).spawned
      | .Coaching k => (get_ai_coaching env k).spawned
      | .Example k => (run_example env k).spawned := by
  cases command <;> rfl

/-- Claim C7: every valid subcommand input parses to exactly one Command
variant; when the flag is omitted the default kind is applied: fetch-data
yields FetchData "activities", coaching yields Coaching "activity", example
yields Example "data"; a supplied flag value passes through verbatim. -/
theorem parse_defaults :
    parse ["fetch-data"] = some (.FetchData "activities") ∧
    parse ["coaching"] = some (.Coaching "activity") ∧
    parse ["example"] = some (.Example "data") ∧
    (∀ v, parse ["fetch-data", "--data-type", v] = some (.FetchData v)) ∧
    (∀ v, parse ["coaching", "--coaching-type", v] = some (.Coaching v)) ∧
    (∀ v, parse ["example", "--example-type", v] = some (.Example v)) := by
  refine ⟨rfl, rfl, rfl, ?_, ?_, ?_⟩ <;>
    intro v <;> simp [parse, parse_flag_value]

/-- Claim C8 is false as stated: the caller can pass an explicitly empty flag
value, which parses successfully, so the empty kind does reach dispatch. -/
theorem parse_nonempty_counterexample :
    parse ["fetch-data", "--data-type", ""] = some (.FetchData "") := by
  simp [parse, parse_flag_value]

/-- Claim C8 amended: every successful parse yields exactly one variant whose
kind is present; the kind is the nonempty default whenever the flag is
omitted, and it can be empty only when the caller explicitly supplies the
empty string as an argument token. -/
theorem parse_flag_value_mem (short long dflt v : String) (toks : List String)
    (h : parse_flag_value short long dflt toks = some v) :
    v = dflt ∨ v ∈ toks := by
  unfold parse_flag_value at h
  split at h
  · exact Or.inl (Option.some.inj h).symm
  · split at h
    · exact Or.inr (by rw [← Option.some.inj h]; simp)
    · exact Option.noConfusion h
  · exact Option.noConfusion h

theorem parse_nonempty_amended (args : List String) (command : Commands)
    (h : parse args = some command) (hk : kindOf command = "") :
    "" ∈ args := by
  unfold parse at h
  split at h
  case _ rest =>
    cases hv : parse_flag_value "d" "data-type" "activities" rest with
    | none => rw [hv] at h; simp at h
    | some v =>
        rw [hv] at h
        injection h with h2
        subst h2
        simp [kindOf] at hk
        subst hk
        rcases parse_flag_value_mem _ _ _ _ _ hv with hd | hm
        · exact absurd hd (by decide)
        · exact List.mem_cons_of_mem _ hm
  case _ rest =>
    cases hv : parse_flag_value "c" "coaching-type" "activity" rest with
    | none => rw [hv] at h; simp at h
    | some v =>
        rw [hv] at h
        injection h with h2
        subst h2
        simp [kindOf] at hk
        subst hk
        rcases parse_flag_value_mem _ _ _ _ _ hv with hd | hm
        · exact absurd hd (by decide)
        · exact List.mem_cons_of_mem _ hm
  case _ rest =>
    cases hv : parse_flag_value "e" "example-type" "data" rest with
    | none => rw [hv] at h; simp at h
    | some v =>
        rw [hv] at h
        injection h with h2
        subst h2
        simp [kindOf] at hk
        subst hk
        rcases parse_flag_value_mem _ _ _ _ _ hv with hd | hm
        · exact absurd hd (by decide)
        · exact List.mem_cons_of_mem _ hm
  case _ => simp at h

/-- Witness for the amended C8: applied to the empty-flag-value input. -/
theorem parse_nonempty_amended_witness :
    ("" : String) ∈ ["fetch-data", "--data-type", ""] :=
  parse_nonempty_amended ["fetch-data", "--data-type", ""] (.FetchData "")
    (by simp [parse, parse_flag_value]) rfl

/-! Concrete environments used by witnesses and counterexamples. -/

/-- Every spawn succeeds; the child exits 0, writes "OK" to stdout and "noise"
to stderr. -/
def okEnv : SpawnEnv := constEnv (.ok ⟨0, "OK", "noise"⟩)

/-- Every spawn succeeds; the child exits 1, writes "partial" to stdout and
"boom" to stderr. -/
def boomEnv : SpawnEnv := constEnv (.ok ⟨1, "partial", "boom"⟩)

/-- Every spawn fails to launch with an os-error cause. -/
def noLaunchEnv : SpawnEnv := constEnv (.error "No such file or directory (os error 2)")

/-- Claim C2: resolution is the fixed table — Example "data" spawns exactly
the FetchData target, Example "ai" exactly the Coaching target, and Example
with any other kind resolves to no target: an UnsupportedInput outcome with
zero spawn attempts and only the unsupported-input diagnostic printed. -/
theorem example_resolution (env : SpawnEnv) (dk ck k : String)
    (h1 : k ≠ "data") (h2 : k ≠ "ai") :
    (run_example env "data").spawned = (fetch_garmin_data env dk).spawned ∧
    (run_example env "ai").spawned = (get_ai_coaching env ck).spawned ∧
    specResolve (.Example k) = none ∧
    specOutcome env (.Example k) = .UnsupportedInput ∧
    (run_example env k).spawned = [] ∧
    (run_example env k).err = ["Unknown example type. Use \x27data\x27 or \x27ai\x27"] := by
  refine ⟨?_, ?_, ?_, ?_, ?_, ?_⟩
  · rw [spawned_example_data, spawned_fetch]
  · rw [spawned_example_ai, spawned_coaching]
  · simp [specResolve, h1, h2]
  · simp [specOutcome, specResolve, h1, h2]
  · exact spawned_example_other env k h1 h2
  · simp [run_example, h1, h2]

/-- Witness for C2 at kind "bogus" under the all-ok environment. -/
theorem example_resolution_witness :
    (run_example okEnv "data").spawned = (fetch_garmin_data okEnv "activities").spawned ∧
    (run_example okEnv "ai").spawned = (get_ai_coaching okEnv "activity").spawned ∧
    specResolve (.Example "bogus") = none ∧
    specOutcome okEnv (.Example "bogus") = .UnsupportedInput ∧
    (run_example okEnv "bogus").spawned = [] ∧
    (run_example okEnv "bogus").err = ["Unknown example type. Use \x27data\x27 or \x27ai\x27"] :=
  example_resolution okEnv "activities" "activity" "bogus" (by decide) (by decide)

/-- Claim C3: the kind carried by FetchData and Coaching has no effect on the
external-operation invocation: both dispatch functions are literally
independent of it, and spec resolution is constant in it. -/
theorem kind_not_threaded (env : SpawnEnv) (k1 k2 : String) :
    fetch_garmin_data env k1 = fetch_garmin_data env k2 ∧
    get_ai_coaching env k1 = get_ai_coaching env k2 ∧
    specResolve (.FetchData k1) = specResolve (.FetchData k2) ∧
    specResolve (.Coaching k1) = specResolve (.Coaching k2) :=
  ⟨rfl, rfl, rfl, rfl⟩

/-- Claim C9 is false as stated: the spawned command line is not identical
across every command and kind pair — Example "data" and Example "ai" spawn
different argument lists. -/
theorem fixed_command_line_counterexample :
    (main okEnv (.Example "data")).spawned ≠ (main okEnv (.Example "ai")).spawned := by
  decide

/-- Claim C9 amended: every spawn attempt of any dispatch runs the executable
python3 with exactly one argument drawn from the fixed two-script set, so no
user-supplied string ever appears in a spawned command line; for FetchData
and Coaching the spawned command line is moreover independent of the kind,
while Example's kind only selects between the two fixed targets. -/
theorem fixed_command_line_amended (env : SpawnEnv) (command : Commands)
    (k1 k2 : String) (t : InvocationTarget) (h : t ∈ (main env command).spawned) :
    (t = exampleScriptTarget ∨ t = aiScriptTarget) ∧
    (main env (.FetchData k1)).spawned = (main env (.FetchData k2)).spawned ∧
    (main env (.Coaching k1)).spawned = (main env (.Coaching k2)).spawned := by
  refine ⟨?_, rfl, rfl⟩
  cases command with
  | FetchData k =>
      rw [show (main env (.FetchData k)).spawned = (fetch_garmin_data env k).spawned from rfl,
        spawned_fetch] at h
      simp at h
      exact Or.inl h
  | Coaching k =>
      rw [show (main env (.Coaching k)).spawned = (get_ai_coaching env k).spawned from rfl,
        spawned_coaching] at h
      simp at h
      exact Or.inr h
  | Example k =>
      rw [show (main env (.Example k)).spawned = (run_example env k).spawned from rfl] at h
      by_cases hk1 : k = "data"
      · subst hk1; rw [spawned_example_data] at h; simp at h; exact Or.inl h
      · by_cases hk2 : k = "ai"
        · subst hk2; rw [spawned_example_ai] at h; simp at h; exact Or.inr h
        · rw [spawned_example_other env k hk1 hk2] at h; simp at h

/-- Witness for the amended C9: the FetchData spawn under the all-ok
environment is in the fixed set. -/
theorem fixed_command_line_amended_witness :
    (exampleScriptTarget = exampleScriptTarget ∨ exampleScriptTarget = aiScriptTarget) ∧
    (main okEnv (.FetchData "health")).spawned = (main okEnv (.FetchData "stats")).spawned ∧
    (main okEnv (.Coaching "health")).spawned = (main okEnv (.Coaching "stats")).spawned :=
  fixed_command_line_amended okEnv (.FetchData "activities") "health" "stats"
    exampleScriptTarget (by decide)

/-- Claim C1 is false as stated: on an OperationFailure outcome (child exits
1 with stderr "boom") the process exit status is 0, and on an
UnsupportedInput outcome (Example "bogus") the process exit status is also
0 — exit status 0 is not reserved for Success. -/
theorem exit_status_counterexample :
    specOutcome boomEnv (.FetchData "activities") = .OperationFailure "boom" ∧
    process_exit_code boomEnv (.FetchData "activities") = 0 ∧
    specOutcome okEnv (.Example "bogus") = .UnsupportedInput ∧
    process_exit_code okEnv (.Example "bogus") = 0 :=
  ⟨rfl, rfl, rfl, rfl⟩

/-- Claim C1 amended: the process exit status is nonzero exactly when the
dispatch outcome is LaunchFailure; OperationFailure and UnsupportedInput
outcomes print their diagnostics to stderr but still exit with status 0. -/
theorem exit_status_amended (env : SpawnEnv) (command : Commands) :
    process_exit_code env command ≠ 0 ↔
      ∃ c, specOutcome env command = .LaunchFailure c := by
  cases command with
  | FetchData k =>
      rcases h : env exampleScriptTarget with e | o
      · simp [process_exit_code, main, fetch_garmin_data, specOutcome, specResolve, h]
      · by_cases ho : o.exit_code = 0 <;>
          simp [process_exit_code, main, fetch_garmin_data, specOutcome, specResolve, h, ho]
  | Coaching k =>
      rcases h : env aiScriptTarget with e | o
      · simp [process_exit_code, main, get_ai_coaching, specOutcome, specResolve, h]
      · by_cases ho : o.exit_code = 0 <;>
          simp [process_exit_code, main, get_ai_coaching, specOutcome, specResolve, h, ho]
  | Example k =>
      by_cases hk1 : k = "data"
      · subst hk1
        rcases h : env exampleScriptTarget with e | o
        · simp [process_exit_code, main, run_example, specOutcome, specResolve, h]
        · by_cases ho : o.exit_code = 0 <;>
            simp [process_exit_code, main, run_example, specOutcome, specResolve, h, ho]
      · by_cases hk2 : k = "ai"
        · subst hk2
          rcases h : env aiScriptTarget with e | o
          · simp [process_exit_code, main, run_example, specOutcome, specResolve, h]
          · by_cases ho : o.exit_code = 0 <;>
              simp [process_exit_code, main, run_example, specOutcome, specResolve, h, ho]
        · simp [process_exit_code, main, run_example, specOutcome, specResolve, hk1, hk2]

/-- Witness for the amended C1 at a launch-failure environment. -/
theorem exit_status_amended_witness :
    (process_exit_code noLaunchEnv (.FetchData "activities") ≠ 0 ↔
      ∃ c, specOutcome noLaunchEnv (.FetchData "activities") = .LaunchFailure c) :=
  exit_status_amended noLaunchEnv (.FetchData "activities")

/-- Claim C4: when the child starts and exits with a nonzero status, the
outcome is OperationFailure carrying the captured stderr verbatim, the
captured stderr is printed verbatim as its own diagnostic line, and the
child's stdout is never shown: the printed stdout lines are independent of
the captured stdout. -/
theorem operation_failure_stderr (command : Commands) (c : Nat) (s s2 e : String)
    (hc : c ≠ 0)
    (hspawn : (main (constEnv (.ok ⟨c, s, e⟩)) command).spawned ≠ []) :
    specOutcome (constEnv (.ok ⟨c, s, e⟩)) command = .OperationFailure e ∧
    e ∈ (main (constEnv (.ok ⟨c, s, e⟩)) command).err ∧
    (main (constEnv (.ok ⟨c, s, e⟩)) command).out
      = (main (constEnv (.ok ⟨c, s2, e⟩)) command).out := by
  cases command with
  | FetchData k =>
      refine ⟨?_, ?_, ?_⟩ <;>
        simp [specOutcome, specResolve, main, fetch_garmin_data, constEnv, hc]
  | Coaching k =>
      refine ⟨?_, ?_, ?_⟩ <;>
        simp [specOutcome, specResolve, main, get_ai_coaching, constEnv, hc]
  | Example k =>
      by_cases hk1 : k = "data"
      · subst hk1
        refine ⟨?_, ?_, ?_⟩ <;>
          simp [specOutcome, specResolve, main, run_example, constEnv, hc]
      · by_cases hk2 : k = "ai"
        · subst hk2
          refine ⟨?_, ?_, ?_⟩ <;>
            simp [specOutcome, specResolve, main, run_example, constEnv, hc]
        · exfalso
          apply hspawn
          rw [show (main (constEnv (.ok ⟨c, s, e⟩)) (.Example k)).spawned
              = (run_example (constEnv (.ok ⟨c, s, e⟩)) k).spawned from rfl]
          exact spawned_example_other _ k hk1 hk2

/-- Witness for C4: child exits 1 writing "partial" to stdout and "boom" to
stderr during a fetch-data dispatch. -/
theorem operation_failure_stderr_witness :
    specOutcome (constEnv (.ok ⟨1, "partial", "boom"⟩)) (.FetchData "activities")
      = .OperationFailure "boom" ∧
    "boom" ∈ (main (constEnv (.ok ⟨1, "partial", "boom"⟩)) (.FetchData "activities")).err ∧
    (main (constEnv (.ok ⟨1, "partial", "boom"⟩)) (.FetchData "activities")).out
      = (main (constEnv (.ok ⟨1, "other", "boom"⟩)) (.FetchData "activities")).out :=
  operation_failure_stderr (.FetchData "activities") 1 "partial" "other" "boom"
    (by decide) (by decide)

/-- Claim C5: when the child starts and exits with status 0, the outcome is
Success carrying the captured stdout verbatim, the captured stdout is printed
verbatim as its own line, and the captured stderr is ignored: the entire
observable behaviour is independent of it. -/
theorem success_stdout (command : Commands) (s e e2 : String)
    (hspawn : (main (constEnv (.ok ⟨0, s, e⟩)) command).spawned ≠ []) :
    specOutcome (constEnv (.ok ⟨0, s, e⟩)) command = .Success s ∧
    s ∈ (main (constEnv (.ok ⟨0, s, e⟩)) command).out ∧
    main (constEnv (.ok ⟨0, s, e⟩)) command = main (constEnv (.ok ⟨0, s, e2⟩)) command := by
  cases command with
  | FetchData k =>
      refine ⟨?_, ?_, ?_⟩ <;>
        simp [specOutcome, specResolve, main, fetch_garmin_data, constEnv]
  | Coaching k =>
      refine ⟨?_, ?_, ?_⟩ <;>
        simp [specOutcome, specResolve, main, get_ai_coaching, constEnv]
  | Example k =>
      by_cases hk1 : k = "data"
      · subst hk1
        refine ⟨?_, ?_, ?_⟩ <;>
          simp [specOutcome, specResolve, main, run_example, constEnv]
      · by_cases hk2 : k = "ai"
        · subst hk2
          refine ⟨?_, ?_, ?_⟩ <;>
            simp [specOutcome, specResolve, main, run_example, constEnv]
        · exfalso
          apply hspawn
          rw [show (main (constEnv (.ok ⟨0, s, e⟩)) (.Example k)).spawned
              = (run_example (constEnv (.ok ⟨0, s, e⟩)) k).spawned from rfl]
          exact spawned_example_other _ k hk1 hk2

/-- Witness for C5: child exits 0 writing "OK" to stdout during a fetch-data
dispatch; two different stderr texts leave the behaviour unchanged. -/
theorem success_stdout_witness :
    specOutcome (constEnv (.ok ⟨0, "OK", "noise"⟩)) (.FetchData "activities") = .Success "OK" ∧
    "OK" ∈ (main (constEnv (.ok ⟨0, "OK", "noise"⟩)) (.FetchData "activities")).out ∧
    main (constEnv (.ok ⟨0, "OK", "noise"⟩)) (.FetchData "activities")
      = main (constEnv (.ok ⟨0, "OK", "quiet"⟩)) (.FetchData "activities") :=
  success_stdout (.FetchData "activities") "OK" "noise" "quiet" (by decide)

/-- Claim C6: when the spawn itself fails, the outcome is LaunchFailure
carrying the underlying cause, the returned error names that cause under the
function's context message, nothing is printed to stderr (there are no
captured streams to interpret), and the failure propagates to a nonzero
process exit status. -/
theorem launch_failure_diag (command : Commands) (cause : String)
    (hspawn : (main (constEnv (.error cause)) command).spawned ≠ []) :
    specOutcome (constEnv (.error cause)) command = .LaunchFailure cause ∧
    (∃ ctx, (main (constEnv (.error cause)) command).ret = .error ⟨ctx, cause⟩) ∧
    (main (constEnv (.error cause)) command).err = [] ∧
    process_exit_code (constEnv (.error cause)) command = 1 := by
  cases command with
  | FetchData k =>
      refine ⟨?_, ⟨"Failed to execute Python script. Make sure Python 3 is installed.", ?_⟩,
          ?_, ?_⟩ <;>
        simp [specOutcome, specResolve, main, fetch_garmin_data, process_exit_code, constEnv]
  | Coaching k =>
      refine ⟨?_, ⟨"Failed to execute AI coaching script. Make sure Python 3 is installed.", ?_⟩,
          ?_, ?_⟩ <;>
        simp [specOutcome, specResolve, main, get_ai_coaching, process_exit_code, constEnv]
  | Example k =>
      by_cases hk1 : k = "data"
      · subst hk1
        refine ⟨?_, ⟨"Failed to execute example script. Make sure Python 3 is installed.", ?_⟩,
            ?_, ?_⟩ <;>
          simp [specOutcome, specResolve, main, run_example, process_exit_code, constEnv]
      · by_cases hk2 : k = "ai"
        · subst hk2
          refine ⟨?_, ⟨"Failed to execute example script. Make sure Python 3 is installed.", ?_⟩,
              ?_, ?_⟩ <;>
            simp [specOutcome, specResolve, main, run_example, process_exit_code, constEnv]
        · exfalso
          apply hspawn
          rw [show (main (constEnv (.error cause)) (.Example k)).spawned
              = (run_example (constEnv (.error cause)) k).spawned from rfl]
          exact spawned_example_other _ k hk1 hk2

/-- Witness for C6: a missing-interpreter cause during a fetch-data dispatch. -/
theorem launch_failure_diag_witness :
    specOutcome (constEnv (.error "No such file or directory (os error 2)"))
      (.FetchData "activities") = .LaunchFailure "No such file or directory (os error 2)" ∧
    (∃ ctx, (main (constEnv (.error "No such file or directory (os error 2)"))
      (.FetchData "activities")).ret
        = .error ⟨ctx, "No such file or directory (os error 2)"⟩) ∧
    (main (constEnv (.error "No such file or directory (os error 2)"))
      (.FetchData "activities")).err = [] ∧
    process_exit_code (constEnv (.error "No such file or directory (os error 2)"))
      (.FetchData "activities") = 1 :=
  launch_failure_diag (.FetchData "activities") "No such file or directory (os error 2)"
    (by decide)

/-- Claim C10: whenever the child process starts, each of the three dispatch
functions returns Ok regardless of the child's exit status; the only Err path
out of them is the failure to launch, which returns the contexted io error. -/
theorem started_returns_ok (envA envB : SpawnEnv) (k : String) (o : ChildOutput)
    (cause : String) (hA : ∀ t, envA t = .ok o) (hB : ∀ t, envB t = .error cause) :
    (fetch_garmin_data envA k).ret = .ok () ∧
    (get_ai_coaching envA k).ret = .ok () ∧
    (run_example envA k).ret = .ok () ∧
    (fetch_garmin_data envB k).ret
      = .error ⟨"Failed to execute Python script. Make sure Python 3 is installed.", cause⟩ ∧
    (get_ai_coaching envB k).ret
      = .error ⟨"Failed to execute AI coaching script. Make sure Python 3 is installed.", cause⟩ ∧
    ((k = "data" ∨ k = "ai") →
      (run_example envB k).ret
        = .error ⟨"Failed to execute example script. Make sure Python 3 is installed.", cause⟩) := by
  refine ⟨?_, ?_, ?_, ?_, ?_, ?_⟩
  · simp [fetch_garmin_data, hA]
    split <;> rfl
  · simp [get_ai_coaching, hA]
    split <;> rfl
  · unfold run_example
    split
    · simp [hA]
      split <;> rfl
    · rfl
  · simp [fetch_garmin_data, hB]
  · simp [get_ai_coaching, hB]
  · intro hk
    unfold run_example
    rw [if_pos hk]
    simp [hB]

/-- Witness for C10: a child that exits 7 still yields Ok from all three
functions; a launch failure yields the contexted error from all three. -/
theorem started_returns_ok_witness :
    (fetch_garmin_data (constEnv (.ok ⟨7, "x", "y"⟩)) "data").ret = .ok () ∧
    (get_ai_coaching (constEnv (.ok ⟨7, "x", "y"⟩)) "data").ret = .ok () ∧
    (run_example (constEnv (.ok ⟨7, "x", "y"⟩)) "data").ret = .ok () ∧
    (fetch_garmin_data (constEnv (.error "denied")) "data").ret
      = .error ⟨"Failed to execute Python script. Make sure Python 3 is installed.", "denied"⟩ ∧
    (get_ai_coaching (constEnv (.error "denied")) "data").ret
      = .error ⟨"Failed to execute AI coaching script. Make sure Python 3 is installed.",
          "denied"⟩ ∧
    (("data" = "data" ∨ "data" = "ai") →
      (run_example (constEnv (.error "denied")) "data").ret
        = .error ⟨"Failed to execute example script. Make sure Python 3 is installed.",
            "denied"⟩) :=
  started_returns_ok (constEnv (.ok ⟨7, "x", "y"⟩)) (constEnv (.error "denied")) "data"
    ⟨7, "x", "y"⟩ "denied" (fun _ => rfl) (fun _ => rfl)

end GarminCoach
